import Mathlib

/-!
Shallow embedding of the session-lifecycle supervisor in `agent.py` and the
health-check handlers in `render_app.py` / `agent.py`, together with theorems
settling the specification's claims about backend fallback, avatar attachment,
cleanup, the auto-restart controller, and the liveness endpoint.
-/

set_option autoImplicit false

/-- The two conversation-backend kinds the selector can construct
(`create_ollama_session` builds an Ollama-backed `AgentSession`,
`create_gemini_session` a Gemini-backed one). -/
inductive SessionKind
  | ollama
  | gemini
  deriving DecidableEq, Repr

/-- `create_ollama_session`: returns `None` when the Ollama plugin is
unavailable (`OLLAMA_AVAILABLE` false) or when constructing the
`AgentSession` raises (the `except` clause returns `None`); otherwise the
Ollama session. -/
def create_ollama_session (ollamaAvailable : Bool) (constructionOk : Bool) :
    Option SessionKind :=
  if !ollamaAvailable then none
  else if constructionOk then some SessionKind.ollama
  else none

/-- `create_gemini_session`: returns the Gemini session on successful
construction, `None` when construction raises (caught by its `except`). -/
def create_gemini_session (constructionOk : Bool) : Option SessionKind :=
  if constructionOk then some SessionKind.gemini else none

/-- `create_session_with_fallback`: try Ollama first; if it yielded `None`,
fall back to Gemini. Returns whatever the fallback chain produced. -/
def create_session_with_fallback (ollamaAvailable ollamaOk geminiOk : Bool) :
    Option SessionKind :=
  match create_ollama_session ollamaAvailable ollamaOk with
  | some s => some s
  | none => create_gemini_session geminiOk

/-- The ordered candidate list the selector works through: Ollama before
Gemini, each entry being that candidate's construction result. -/
def candidateResults (ollamaAvailable ollamaOk geminiOk : Bool) :
    List (Option SessionKind) :=
  [create_ollama_session ollamaAvailable ollamaOk,
   create_gemini_session geminiOk]

/-- Modelled from the spec's words for the refinement comparison in C1: the
result of a priority-ordered fallback is the first candidate result that is a
success, in list order. -/
def specFirstSuccess (l : List (Option SessionKind)) : Option SessionKind :=
  l.findSome? id

/-- Python truthiness of an environment-variable lookup: `not os.getenv(X)`
is true when the variable is unset (`None`) or set to the empty string. -/
def isBlank : Option String → Bool
  | none => true
  | some s => s == ""

/-- Outcome of the Tavus avatar block in `entrypoint`: the constructor
`tavus.AvatarSession(...)` may raise (caught by the generic `except`), and
`avatar.start` bounded by the 30-second `asyncio.wait_for` may succeed,
raise an `APIStatusError` with some status code, time out, or raise any
other exception. -/
inductive AvatarOutcome
  | constructionError
  | startOk
  | apiStatusError (statusCode : Nat)
  | timeout
  | otherError
  deriving DecidableEq, Repr

/-- The `timeout=30.0` bound on `avatar.start` in `entrypoint`. -/
def avatarStartTimeout : Nat := 30

/-- One observation made by an iteration of `keep_session_alive`'s loop:
the loop-top shutdown flag test, the `connection_state` sample (connected
or disconnected), or an exception while sampling. -/
inductive LivenessSample
  | shutdownSeen
  | connectedOk
  | disconnectedSeen
  | sampleError
  deriving DecidableEq, Repr

/-- Why `keep_session_alive` returned. -/
inductive KeepAliveExit
  | shutdown
  | disconnected
  | sampleError
  deriving DecidableEq, Repr

/-- `keep_session_alive`: loop while the shutdown flag is unset; each
iteration sleeps 30 seconds then samples the room's connection state,
breaking on disconnect, and breaking on any exception while sampling. The
function always returns normally (every exception inside the loop body is
caught). The samples list scripts the externally-observed values. -/
def keep_session_alive : List LivenessSample → KeepAliveExit
  | [] => KeepAliveExit.shutdown
  | s :: rest =>
    match s with
    | LivenessSample.shutdownSeen => KeepAliveExit.shutdown
    | LivenessSample.connectedOk => keep_session_alive rest
    | LivenessSample.disconnectedSeen => KeepAliveExit.disconnected
    | LivenessSample.sampleError => KeepAliveExit.sampleError

/-- Result of `cleanup_resources`: whether `session.aclose()` was attempted,
and whether the call raised to its caller (`with suppress(Exception)` plus
the surrounding `try/except` mean it never does). -/
structure CleanupResult where
  closeInvoked : Bool
  raised : Bool
  deriving DecidableEq, Repr

/-- `cleanup_resources(session, avatar)`: does nothing when `session` is
`None`; otherwise awaits `session.aclose()` inside `with suppress(Exception)`
(so a raising `aclose` — the `acloseRaises` argument — is swallowed), and the
enclosing `try/except` logs and swallows anything else. The avatar argument
is ignored (no close method). -/
def cleanup_resources (session : Option SessionKind) (acloseRaises : Bool) :
    CleanupResult :=
  match session, acloseRaises with
  | none, _ => { closeInvoked := false, raised := false }
  | some _, _ => { closeInvoked := true, raised := false }

/-- `_max_restarts` global in `agent.py`. -/
def _max_restarts : Nat := 10

/-- `signal_handler(signum, frame)`: sets the global `_shutdown_requested`
to `True` unconditionally; it never clears it. Returns the new flag value
given the previous one. -/
def signal_handler (signum : Nat) (prevShutdownRequested : Bool) : Bool :=
  true

/-- The external inputs that determine one run of `entrypoint`: the global
flags at the time the run (and its exception handler) executes, the
construction outcomes of the two backend candidates, the three Tavus
environment variables, the avatar block's outcome, whether `session.start`
succeeds, whether `session.aclose` would raise during cleanup, and the
scripted liveness observations. -/
structure Env where
  shutdownRequested : Bool
  restartCount : Nat
  ollamaAvailable : Bool
  ollamaOk : Bool
  geminiOk : Bool
  tavusApiKey : Option String
  tavusReplicaId : Option String
  tavusPersonaId : Option String
  avatarOutcome : AvatarOutcome
  sessionStartOk : Bool
  acloseRaises : Bool
  livenessSamples : List LivenessSample
  deriving DecidableEq, Repr

/-- State accumulated by the body of `entrypoint`'s outer `try`: the local
variables `session`, `avatar_initialized`, `tavus_error`, which calls were
made, and which log lines were emitted. -/
structure PreState where
  session : Option SessionKind := none
  avatarConstructionInvoked : Bool := false
  avatarInitialized : Bool := false
  sessionStartInvoked : Bool := false
  sessionStarted : Bool := false
  keepAliveExit : Option KeepAliveExit := none
  quotaErrorLogged : Bool := false
  genericAvatarErrorLogged : Bool := false
  quotaNoteLogged : Bool := false
  tavusError : Option AvatarOutcome := none
  deriving DecidableEq, Repr

/-- How `entrypoint` hands control back to its caller. -/
inductive ExitKind
  | normalReturn
  | raised
  deriving DecidableEq, Repr

/-- Observable result of one `entrypoint` run: how it exited, what it
created, started and logged, how often the cleanup helper ran, and the
global restart counter afterwards. -/
structure RunResult where
  exit : ExitKind
  sessionCreated : Bool
  avatarConstructionInvoked : Bool
  avatarInitialized : Bool
  sessionStartInvoked : Bool
  sessionStarted : Bool
  keepAliveExit : Option KeepAliveExit
  cleanupCalls : Nat
  closeInvoked : Bool
  cleanupRaised : Bool
  restartCount : Nat
  sleptFive : Bool
  quotaErrorLogged : Bool
  genericAvatarErrorLogged : Bool
  quotaNoteLogged : Bool
  tavusError : Option AvatarOutcome
  deriving DecidableEq, Repr

/-- Whether the body of `entrypoint`'s outer `try` returned or raised,
with the accumulated local state at that point. -/
inductive TryOutcome
  | ok (p : PreState)
  | raise (p : PreState)
  deriving DecidableEq, Repr

/-- The avatar `try/except` block of `entrypoint`: construction plus
`asyncio.wait_for(avatar.start(...), timeout=30.0)`. An `APIStatusError`
stores `tavus_error` and logs the credits message when `status_code == 402`,
generically otherwise; a timeout logs a warning without storing
`tavus_error`; any other exception (including one from the constructor)
stores `tavus_error` and logs generically. Only full success sets
`avatar_initialized`. -/
def avatarPhase (p : PreState) (o : AvatarOutcome) : PreState :=
  match o with
  | AvatarOutcome.constructionError =>
    { p with avatarConstructionInvoked := true,
             tavusError := some AvatarOutcome.constructionError,
             genericAvatarErrorLogged := true }
  | AvatarOutcome.startOk =>
    { p with avatarConstructionInvoked := true, avatarInitialized := true }
  | AvatarOutcome.apiStatusError c =>
    { p with avatarConstructionInvoked := true,
             tavusError := some (AvatarOutcome.apiStatusError c),
             quotaErrorLogged := c == 402,
             genericAvatarErrorLogged := c != 402 }
  | AvatarOutcome.timeout =>
    { p with avatarConstructionInvoked := true,
             genericAvatarErrorLogged := true }
  | AvatarOutcome.otherError =>
    { p with avatarConstructionInvoked := true,
             tavusError := some AvatarOutcome.otherError,
             genericAvatarErrorLogged := true }

/-- The "NOTE" log after a successful `session.start`: emitted when the
avatar was not initialized and `tavus_error` is an `APIStatusError` with
status code 402. -/
def tavusQuotaNote (p : PreState) : Bool :=
  !p.avatarInitialized &&
    (match p.tavusError with
     | some (AvatarOutcome.apiStatusError 402) => true
     | _ => false)

/-- Body of `entrypoint`'s outer `try`: backend selection (raising when both
candidates fail), the three mandatory-Tavus-credential checks each of which
`return`s early when its value is missing or empty, the avatar block, then
`session.start` (raising on failure, after which `keep_session_alive` runs
until it returns). -/
def entrypointTryBody (e : Env) : TryOutcome :=
  match create_session_with_fallback e.ollamaAvailable e.ollamaOk e.geminiOk with
  | none => TryOutcome.raise {}
  | some s =>
    let p0 : PreState := { session := some s }
    if isBlank e.tavusApiKey then TryOutcome.ok p0
    else if isBlank e.tavusReplicaId then TryOutcome.ok p0
    else if isBlank e.tavusPersonaId then TryOutcome.ok p0
    else
      let p1 := avatarPhase p0 e.avatarOutcome
      let p2 := { p1 with sessionStartInvoked := true }
      if e.sessionStartOk then
        let p3 := { p2 with sessionStarted := true,
                            quotaNoteLogged := tavusQuotaNote p2 }
        TryOutcome.ok { p3 with keepAliveExit := some (keep_session_alive e.livenessSamples) }
      else TryOutcome.raise p2

/-- A normal return from `entrypoint`: no cleanup runs (the function has no
`finally`), the globals are untouched. -/
def normalResult (e : Env) (p : PreState) : RunResult :=
  { exit := ExitKind.normalReturn
    sessionCreated := p.session.isSome
    avatarConstructionInvoked := p.avatarConstructionInvoked
    avatarInitialized := p.avatarInitialized
    sessionStartInvoked := p.sessionStartInvoked
    sessionStarted := p.sessionStarted
    keepAliveExit := p.keepAliveExit
    cleanupCalls := 0
    closeInvoked := false
    cleanupRaised := false
    restartCount := e.restartCount
    sleptFive := false
    quotaErrorLogged := p.quotaErrorLogged
    genericAvatarErrorLogged := p.genericAvatarErrorLogged
    quotaNoteLogged := p.quotaNoteLogged
    tavusError := p.tavusError }

/-- `entrypoint`'s outer `except Exception` handler: run `cleanup_resources`
once, then — when shutdown was not requested and the global restart counter
is below `_max_restarts` — increment the counter and sleep 5 seconds before
re-raising; otherwise re-raise directly. -/
def exceptHandler (e : Env) (p : PreState) : RunResult :=
  let c := cleanup_resources p.session e.acloseRaises
  let retry : Bool :=
    !e.shutdownRequested && decide (e.restartCount < _max_restarts)
  { exit := ExitKind.raised
    sessionCreated := p.session.isSome
    avatarConstructionInvoked := p.avatarConstructionInvoked
    avatarInitialized := p.avatarInitialized
    sessionStartInvoked := p.sessionStartInvoked
    sessionStarted := p.sessionStarted
    keepAliveExit := p.keepAliveExit
    cleanupCalls := 1
    closeInvoked := c.closeInvoked
    cleanupRaised := c.raised
    restartCount := if retry then e.restartCount + 1 else e.restartCount
    sleptFive := retry
    quotaErrorLogged := p.quotaErrorLogged
    genericAvatarErrorLogged := p.genericAvatarErrorLogged
    quotaNoteLogged := p.quotaNoteLogged
    tavusError := p.tavusError }

/-- `entrypoint(ctx)`: run the `try` body; on an exception, the outer
handler cleans up and decides whether to bump the restart counter and delay
before re-raising. -/
def entrypoint (e : Env) : RunResult :=
  match entrypointTryBody e with
  | TryOutcome.ok p => normalResult e p
  | TryOutcome.raise p => exceptHandler e p

/-- How one `cli.run_app` call inside `run_agent_with_auto_restart`'s loop
ends: a normal return, a `KeyboardInterrupt`, or any other exception. -/
inductive AttemptResult
  | normal
  | keyboardInterrupt
  | crashed
  deriving DecidableEq, Repr

/-- What one attempt did to the shared globals while it ran (the signal
handler may set `_shutdown_requested`; `entrypoint`'s handler may bump
`_restart_count`), together with how it ended. -/
structure Attempt where
  setsShutdown : Bool
  countDelta : Nat
  result : AttemptResult
  deriving DecidableEq, Repr

/-- The process-wide mutable globals `_shutdown_requested` and
`_restart_count`. -/
structure LifecycleState where
  shutdownRequested : Bool
  restartCount : Nat
  deriving DecidableEq, Repr

/-- The progressive-backoff formula `min(60, 5 * _restart_count)` used after
a crash. -/
def backoffDelay (r : Nat) : Nat := min 60 (5 * r)

/-- Output of one iteration of the controller loop: the globals afterwards,
the sleep performed (if any), and whether control returns to the loop guard
(`false` when the iteration executed `break`). -/
structure StepOutput where
  state : LifecycleState
  sleep : Option Nat
  continues : Bool
  deriving DecidableEq, Repr

/-- One iteration of `run_agent_with_auto_restart`'s `while` body, given the
globals at the loop top and the attempt's behavior. A normal return sleeps
10 seconds and increments the counter unless shutdown was requested; a
`KeyboardInterrupt` sets the shutdown flag and breaks; any other exception
increments the counter and sleeps `min(60, 5 * count)` when the counter is
still below `_max_restarts`, and otherwise gives up and breaks. -/
def run_agent_step (s : LifecycleState) (a : Attempt) : StepOutput :=
  let s1 : LifecycleState :=
    { shutdownRequested := s.shutdownRequested || a.setsShutdown,
      restartCount := s.restartCount + a.countDelta }
  match a.result with
  | AttemptResult.normal =>
    if s1.shutdownRequested then { state := s1, sleep := none, continues := true }
    else
      { state := { s1 with restartCount := s1.restartCount + 1 },
        sleep := some 10, continues := true }
  | AttemptResult.keyboardInterrupt =>
    { state := { s1 with shutdownRequested := true }, sleep := none,
      continues := false }
  | AttemptResult.crashed =>
    if s1.restartCount < _max_restarts then
      { state := { s1 with restartCount := s1.restartCount + 1 },
        sleep := some (backoffDelay (s1.restartCount + 1)), continues := true }
    else { state := s1, sleep := none, continues := false }

/-- Trace events of the controller loop: an attempt starting with the
globals at that moment, and a sleep of the given number of seconds. -/
inductive CtrlEvent
  | attemptStarted (s : LifecycleState)
  | slept (units : Nat)
  deriving DecidableEq, Repr

/-- `run_agent_with_auto_restart`: loop while shutdown is unrequested and
the restart counter is below `_max_restarts`, running one scripted attempt
per iteration and building the event trace; the loop also ends when the
script of attempts is exhausted or an iteration breaks. -/
def run_agent_with_auto_restart :
    LifecycleState → List Attempt → LifecycleState × List CtrlEvent
  | s, [] => (s, [])
  | s, a :: rest =>
    if s.shutdownRequested = false ∧ s.restartCount < _max_restarts then
      let o := run_agent_step s a
      let sleepEvents : List CtrlEvent :=
        match o.sleep with
        | some d => [CtrlEvent.slept d]
        | none => []
      if o.continues then
        let r := run_agent_with_auto_restart o.state rest
        (r.1, CtrlEvent.attemptStarted s :: (sleepEvents ++ r.2))
      else (o.state, CtrlEvent.attemptStarted s :: sleepEvents)
    else (s, [])

/-- An HTTP response as produced by the health-check handlers: status code,
`Content-type` header, and body. -/
structure HttpResponse where
  status : Nat
  contentType : String
  body : String
  deriving DecidableEq, Repr

/-- The JSON body both handlers write for `/health`. -/
def healthJsonBody : String :=
  "\x7b\"status\": \"healthy\", \"agent\": \"English Teacher Agent\"\x7d"

/-- `HealthCheckHandler.do_GET` in `render_app.py`: `/health` gets the JSON
health body, every other path a plain-text banner. -/
def RenderApp.do_GET (path : String) : HttpResponse :=
  if path == "/health" then
    { status := 200, contentType := "application/json", body := healthJsonBody }
  else
    { status := 200, contentType := "text/plain",
      body := "English Teacher Agent is running" }

/-- `HealthCheckHandler.do_GET` nested in `run_agent_for_render` in
`agent.py`: same JSON body for `/health`, a Render-specific plain-text
banner otherwise. -/
def AgentRender.do_GET (path : String) : HttpResponse :=
  if path == "/health" then
    { status := 200, contentType := "application/json", body := healthJsonBody }
  else
    { status := 200, contentType := "text/plain",
      body := "English Teacher Agent is running on Render" }

/-- A run in which every external collaborator behaves: both backends can
construct, all Tavus credentials are present, the avatar starts, the agent
session starts, and the liveness loop eventually observes a disconnect. -/
def envAllGood : Env :=
  { shutdownRequested := false
    restartCount := 0
    ollamaAvailable := true
    ollamaOk := true
    geminiOk := true
    tavusApiKey := some "tvs-key"
    tavusReplicaId := some "rf4703150052"
    tavusPersonaId := some "p405fa2e1e31"
    avatarOutcome := AvatarOutcome.startOk
    sessionStartOk := true
    acloseRaises := false
    livenessSamples := [LivenessSample.connectedOk, LivenessSample.disconnectedSeen] }

/-- `envAllGood` except the Tavus persona id is absent. -/
def envMissingPersona : Env := { envAllGood with tavusPersonaId := none }

/-- `envAllGood` except the avatar start reports the 402 billing status. -/
def envQuota : Env :=
  { envAllGood with avatarOutcome := AvatarOutcome.apiStatusError 402 }

/-- `envAllGood` except `session.start` raises. -/
def envCrash : Env := { envAllGood with sessionStartOk := false }

/-- `envCrash` with the global restart counter already at 9, one below
`_max_restarts`. -/
def envCrashAtNine : Env := { envCrash with restartCount := 9 }

/-- `envAllGood` except both backend constructions fail. -/
def envNoBackend : Env :=
  { envAllGood with ollamaAvailable := false, geminiOk := false }

/-- `envAllGood` except the avatar start times out. -/
def envAvatarTimeout : Env :=
  { envAllGood with avatarOutcome := AvatarOutcome.timeout }

/-- Helper: every `attemptStarted` event in the controller trace was emitted
with the shutdown flag unset and the restart counter below the maximum,
because the loop guard is checked before each iteration. -/
theorem attemptStarted_implies_guard :
    ∀ (l : List Attempt) (s st : LifecycleState),
      CtrlEvent.attemptStarted st ∈ (run_agent_with_auto_restart s l).2 →
      st.shutdownRequested = false ∧ st.restartCount < _max_restarts := by
  intro l
  induction l with
  | nil =>
    intro s st h
    simp [run_agent_with_auto_restart] at h
  | cons a rest ih =>
    intro s st h
    simp only [run_agent_with_auto_restart] at h
    by_cases hg : s.shutdownRequested = false ∧ s.restartCount < _max_restarts
    · rw [if_pos hg] at h
      by_cases hc : (run_agent_step s a).continues = true
      · simp only [hc, if_true, List.mem_cons, List.mem_append] at h
        rcases h with h | h | h
        · cases h
          exact hg
        · cases hs : (run_agent_step s a).sleep <;> simp [hs] at h
        · exact ih _ _ h
      · simp only [hc, if_false, Bool.not_eq_true] at h
        rw [if_neg] at h
        · simp only [List.mem_cons] at h
          rcases h with h | h
          · cases h
            exact hg
          · cases hs : (run_agent_step s a).sleep <;> simp [hs] at h
        · simp [hc]
    · rw [if_neg hg] at h
      simp at h

/-- C1: for every candidate list in which at least one candidate's
construction succeeds, `create_session_with_fallback` returns the session of
the first succeeding candidate in priority order (Ollama before Gemini):
an Ollama success is returned as-is, an Ollama failure hands over to Gemini,
and whenever some candidate succeeds the result is exactly the first
successful entry of the ordered candidate list. -/
theorem C1_first_successful_candidate :
    (∀ (a b c : Bool) (s : SessionKind),
        create_ollama_session a b = some s →
        create_session_with_fallback a b c = some s) ∧
    (∀ (a b c : Bool), create_ollama_session a b = none →
        create_session_with_fallback a b c = create_gemini_session c) ∧
    (∀ (a b c : Bool),
        (candidateResults a b c).any Option.isSome = true →
        create_session_with_fallback a b c =
          specFirstSuccess (candidateResults a b c) ∧
        (create_session_with_fallback a b c).isSome = true) := by
  refine ⟨?_, ?_, ?_⟩
  · intro a b c s h
    simp [create_session_with_fallback, h]
  · intro a b c h
    simp [create_session_with_fallback, h]
  · intro a b c h
    cases ho : create_ollama_session a b with
    | some s =>
      simp [create_session_with_fallback, candidateResults, specFirstSuccess, ho]
    | none =>
      cases hg : create_gemini_session c with
      | some s =>
        simp [create_session_with_fallback, candidateResults, specFirstSuccess, ho, hg]
      | none =>
        simp [candidateResults, ho, hg] at h

/-- Witness for C1 at a concrete input: Ollama unavailable, Gemini
constructs, so the selector returns Gemini, the first succeeding entry. -/
theorem C1_first_successful_candidate_witness :
    create_session_with_fallback false false true =
      specFirstSuccess (candidateResults false false true) ∧
    (create_session_with_fallback false false true).isSome = true :=
  C1_first_successful_candidate.2.2 false false true (by decide)

/-- C2: the selector returns no session exactly when every candidate's
construction fails (that is the only error it surfaces), and in that case
`entrypoint` raises, no session object having been constructed and no close
having been attempted. -/
theorem C2_all_candidates_fail :
    (∀ (a b c : Bool),
        create_session_with_fallback a b c = none ↔
          (create_ollama_session a b = none ∧ create_gemini_session c = none)) ∧
    (∀ (e : Env),
        create_ollama_session e.ollamaAvailable e.ollamaOk = none →
        create_gemini_session e.geminiOk = none →
        create_session_with_fallback e.ollamaAvailable e.ollamaOk e.geminiOk = none ∧
        (entrypoint e).exit = ExitKind.raised ∧
        (entrypoint e).sessionCreated = false ∧
        (entrypoint e).closeInvoked = false) := by
  constructor
  · intro a b c
    cases ho : create_ollama_session a b <;>
      simp [create_session_with_fallback, ho]
  · intro e h1 h2
    have hf : create_session_with_fallback e.ollamaAvailable e.ollamaOk
        e.geminiOk = none := by
      simp [create_session_with_fallback, h1, h2]
    refine ⟨hf, ?_⟩
    simp [entrypoint, entrypointTryBody, hf, exceptHandler, cleanup_resources]

/-- Witness for C2 at a concrete input where both candidates fail. -/
theorem C2_all_candidates_fail_witness :
    create_session_with_fallback envNoBackend.ollamaAvailable
      envNoBackend.ollamaOk envNoBackend.geminiOk = none ∧
    (entrypoint envNoBackend).exit = ExitKind.raised ∧
    (entrypoint envNoBackend).sessionCreated = false ∧
    (entrypoint envNoBackend).closeInvoked = false :=
  C2_all_candidates_fail.2 envNoBackend (by decide) (by decide)

/-- C3: after an exceptional termination the controller increments the
counter and sleeps `min(60, 5 * restartCount)` seconds (with `restartCount`
the incremented value); after a normal termination any delay is the fixed
10-second one, and it is exactly 10 whenever shutdown was not requested; in
particular the backoff formula gives 15 at count 3 and 60 at count 20. -/
theorem C3_backoff_formula :
    (∀ (s : LifecycleState) (a : Attempt),
        a.result = AttemptResult.crashed →
        s.restartCount + a.countDelta < _max_restarts →
        (run_agent_step s a).state.restartCount = s.restartCount + a.countDelta + 1 ∧
        (run_agent_step s a).sleep =
          some (backoffDelay ((run_agent_step s a).state.restartCount))) ∧
    (∀ (s : LifecycleState) (a : Attempt),
        a.result = AttemptResult.normal →
        (run_agent_step s a).state.shutdownRequested = false →
        (run_agent_step s a).sleep = some 10) ∧
    (∀ (s : LifecycleState) (a : Attempt),
        a.result = AttemptResult.normal →
        (run_agent_step s a).sleep = none ∨ (run_agent_step s a).sleep = some 10) ∧
    backoffDelay 3 = 15 ∧ backoffDelay 20 = 60 := by
  refine ⟨?_, ?_, ?_, by decide, by decide⟩
  · intro s a hres hlt
    simp [run_agent_step, hres, hlt]
  · intro s a hres hsd
    by_cases h : (s.shutdownRequested || a.setsShutdown) = true
    · simp [run_agent_step, hres, h] at hsd
    · simp only [Bool.not_eq_true] at h
      simp [run_agent_step, hres, h]
  · intro s a hres
    by_cases h : (s.shutdownRequested || a.setsShutdown) = true <;>
      simp [run_agent_step, hres, h]

/-- Witness for C3 at a concrete input: a crash at count 2 yields count 3
and a backoff sleep of that formula value. -/
theorem C3_backoff_formula_witness :
    (run_agent_step { shutdownRequested := false, restartCount := 2 }
        { setsShutdown := false, countDelta := 0,
          result := AttemptResult.crashed }).state.restartCount = 2 + 0 + 1 ∧
    (run_agent_step { shutdownRequested := false, restartCount := 2 }
        { setsShutdown := false, countDelta := 0,
          result := AttemptResult.crashed }).sleep =
      some (backoffDelay ((run_agent_step { shutdownRequested := false, restartCount := 2 }
        { setsShutdown := false, countDelta := 0,
          result := AttemptResult.crashed }).state.restartCount)) :=
  C3_backoff_formula.1 { shutdownRequested := false, restartCount := 2 }
    { setsShutdown := false, countDelta := 0, result := AttemptResult.crashed }
    rfl (by decide)

/-- C4: the restart counter strictly increases on every exceptional
termination and on every normal termination with shutdown unrequested; the
controller loop never starts an attempt once the shutdown flag is set or the
counter has reached `_max_restarts`; and the signal handler only ever sets
the shutdown flag to true. -/
theorem C4_restart_monotonicity_and_gating :
    (∀ (s : LifecycleState) (a : Attempt),
        s.shutdownRequested = false → s.restartCount < _max_restarts →
        a.result = AttemptResult.crashed →
        s.restartCount < (run_agent_step s a).state.restartCount) ∧
    (∀ (s : LifecycleState) (a : Attempt),
        a.result = AttemptResult.normal →
        (run_agent_step s a).state.shutdownRequested = false →
        s.restartCount < (run_agent_step s a).state.restartCount) ∧
    (∀ (s st : LifecycleState) (l : List Attempt),
        CtrlEvent.attemptStarted st ∈ (run_agent_with_auto_restart s l).2 →
        st.shutdownRequested = false ∧ st.restartCount < _max_restarts) ∧
    (∀ (signum : Nat) (prev : Bool), signal_handler signum prev = true) := by
  refine ⟨?_, ?_, ?_, fun _ _ => rfl⟩
  · intro s a hsd hlt hres
    by_cases h : s.restartCount + a.countDelta < _max_restarts
    · simp only [run_agent_step, hres]
      rw [if_pos h]
      dsimp only
      omega
    · simp only [run_agent_step, hres]
      rw [if_neg h]
      dsimp only
      omega
  · intro s a hres hsd
    by_cases h : (s.shutdownRequested || a.setsShutdown) = true
    · simp [run_agent_step, hres, h] at hsd
    · simp only [Bool.not_eq_true] at h
      simp [run_agent_step, hres, h]
      omega
  · intro s st l h
    exact attemptStarted_implies_guard l s st h

/-- Witness for C4 at concrete inputs: a crash at count 0 strictly
increases the counter. -/
theorem C4_restart_monotonicity_and_gating_witness :
    ({ shutdownRequested := false, restartCount := 0 } : LifecycleState).restartCount <
      (run_agent_step { shutdownRequested := false, restartCount := 0 }
        { setsShutdown := false, countDelta := 0,
          result := AttemptResult.crashed }).state.restartCount :=
  C4_restart_monotonicity_and_gating.1
    { shutdownRequested := false, restartCount := 0 }
    { setsShutdown := false, countDelta := 0, result := AttemptResult.crashed }
    rfl (by decide) rfl

/-- Counterexample to C5: in a fully successful run whose liveness loop ends
because the room disconnected — a normal exit from the supervised scope —
`entrypoint` returns without calling `cleanup_resources` at all, so the
session is not "released exactly once on every exit". -/
theorem C5_counterexample :
    (entrypoint envAllGood).exit = ExitKind.normalReturn ∧
    (entrypoint envAllGood).keepAliveExit = some KeepAliveExit.disconnected ∧
    (entrypoint envAllGood).sessionCreated = true ∧
    (entrypoint envAllGood).cleanupCalls = 0 ∧
    (entrypoint envAllGood).closeInvoked = false := by decide

/-- C5 amended: the session is released exactly once, via a close that is
safe when the session was never created and never re-raises, on every
EXCEPTIONAL exit from the supervised scope; on a normal exit (such as the
liveness loop ending on disconnect) no cleanup runs at all. -/
theorem C5_cleanup_on_exceptional_exit :
    (∀ (e : Env), (entrypoint e).exit = ExitKind.raised →
        (entrypoint e).cleanupCalls = 1 ∧
        (entrypoint e).cleanupRaised = false ∧
        (entrypoint e).closeInvoked = (entrypoint e).sessionCreated) ∧
    (∀ (b : Bool), cleanup_resources none b =
        { closeInvoked := false, raised := false }) ∧
    (∀ (s : Option SessionKind) (b : Bool),
        (cleanup_resources s b).raised = false) ∧
    (∀ (e : Env), (entrypoint e).exit = ExitKind.normalReturn →
        (entrypoint e).cleanupCalls = 0) := by
  refine ⟨?_, fun b => rfl, ?_, ?_⟩
  · intro e hx
    cases h : entrypointTryBody e with
    | ok p => simp [entrypoint, h, normalResult] at hx
    | raise p =>
      cases hp : p.session <;>
        simp [entrypoint, h, exceptHandler, cleanup_resources, hp]
  · intro s b
    cases s <;> rfl
  · intro e hx
    cases h : entrypointTryBody e with
    | ok p => simp [entrypoint, h, normalResult]
    | raise p => simp [entrypoint, h, exceptHandler] at hx

/-- Witness for C5's amended theorem: a run whose `session.start` raises
(the exceptional exit) cleans up exactly once, without re-raising from the
close, and the close targets the session that was created. -/
theorem C5_cleanup_on_exceptional_exit_witness :
    (entrypoint envCrash).cleanupCalls = 1 ∧
    (entrypoint envCrash).cleanupRaised = false ∧
    (entrypoint envCrash).closeInvoked = (entrypoint envCrash).sessionCreated :=
  C5_cleanup_on_exceptional_exit.1 envCrash (by decide)

/-- Counterexample to C6: with the Tavus persona id absent (and a working
backend), `entrypoint` does skip avatar construction, but it does not
proceed in voice-only mode — it returns immediately without ever invoking
`session.start`, so no agent session becomes active. -/
theorem C6_counterexample :
    (entrypoint envMissingPersona).avatarConstructionInvoked = false ∧
    (entrypoint envMissingPersona).sessionStartInvoked = false ∧
    (entrypoint envMissingPersona).sessionStarted = false ∧
    (entrypoint envMissingPersona).exit = ExitKind.normalReturn := by decide

/-- C6 amended: when any of the three Tavus configuration values is absent
(or empty), `entrypoint` declines avatar startup without invoking avatar
construction and terminates the attempt normally (no error raised, no
cleanup), but it does not start the agent session either — the agent does
not proceed in voice-only mode. -/
theorem C6_missing_config_early_return :
    ∀ (e : Env),
      (create_session_with_fallback e.ollamaAvailable e.ollamaOk e.geminiOk).isSome = true →
      (isBlank e.tavusApiKey || isBlank e.tavusReplicaId || isBlank e.tavusPersonaId) = true →
      (entrypoint e).exit = ExitKind.normalReturn ∧
      (entrypoint e).avatarConstructionInvoked = false ∧
      (entrypoint e).sessionStartInvoked = false ∧
      (entrypoint e).sessionStarted = false ∧
      (entrypoint e).cleanupCalls = 0 := by
  intro e hs hb
  cases hf : create_session_with_fallback e.ollamaAvailable e.ollamaOk e.geminiOk with
  | none => simp [hf] at hs
  | some s =>
    by_cases h1 : isBlank e.tavusApiKey = true
    · simp [entrypoint, entrypointTryBody, hf, h1, normalResult]
    · simp only [Bool.not_eq_true] at h1
      by_cases h2 : isBlank e.tavusReplicaId = true
      · simp [entrypoint, entrypointTryBody, hf, h1, h2, normalResult]
      · simp only [Bool.not_eq_true] at h2
        by_cases h3 : isBlank e.tavusPersonaId = true
        · simp [entrypoint, entrypointTryBody, hf, h1, h2, h3, normalResult]
        · simp only [Bool.not_eq_true] at h3
          simp [h1, h2, h3] at hb

/-- Witness for C6's amended theorem at the missing-persona input. -/
theorem C6_missing_config_early_return_witness :
    (entrypoint envMissingPersona).exit = ExitKind.normalReturn ∧
    (entrypoint envMissingPersona).avatarConstructionInvoked = false ∧
    (entrypoint envMissingPersona).sessionStartInvoked = false ∧
    (entrypoint envMissingPersona).sessionStarted = false ∧
    (entrypoint envMissingPersona).cleanupCalls = 0 :=
  C6_missing_config_early_return envMissingPersona (by decide) (by decide)

/-- C7: every avatar failure — constructor error, `APIStatusError`, expiry
of the 30-second timeout, or any other start error — leaves the binding
absent (`avatar_initialized` false), leaves the created session in place,
and is never fatal: `session.start` is still invoked, and if it succeeds
the attempt proceeds to a normal exit. -/
theorem C7_avatar_failure_never_fatal :
    avatarStartTimeout = 30 ∧
    (∀ (e : Env),
      (create_session_with_fallback e.ollamaAvailable e.ollamaOk e.geminiOk).isSome = true →
      isBlank e.tavusApiKey = false →
      isBlank e.tavusReplicaId = false →
      isBlank e.tavusPersonaId = false →
      e.avatarOutcome ≠ AvatarOutcome.startOk →
      (entrypoint e).avatarInitialized = false ∧
      (entrypoint e).sessionCreated = true ∧
      (entrypoint e).sessionStartInvoked = true ∧
      (e.sessionStartOk = true →
        (entrypoint e).exit = ExitKind.normalReturn ∧
        (entrypoint e).sessionStarted = true)) := by
  refine ⟨rfl, ?_⟩
  intro e hs h1 h2 h3 hav
  cases hf : create_session_with_fallback e.ollamaAvailable e.ollamaOk e.geminiOk with
  | none => simp [hf] at hs
  | some s =>
    by_cases hstart : e.sessionStartOk = true
    · cases ho : e.avatarOutcome <;>
        simp [ho] at hav ⊢ <;>
        simp [entrypoint, entrypointTryBody, hf, h1, h2, h3, ho, hstart,
              avatarPhase, tavusQuotaNote, normalResult]
    · simp only [Bool.not_eq_true] at hstart
      cases ho : e.avatarOutcome <;>
        simp [ho] at hav ⊢ <;>
        simp [entrypoint, entrypointTryBody, hf, h1, h2, h3, ho, hstart,
              avatarPhase, exceptHandler]

/-- Witness for C7 at the avatar-timeout input: voice-only, session still
started, normal exit. -/
theorem C7_avatar_failure_never_fatal_witness :
    (entrypoint envAvatarTimeout).avatarInitialized = false ∧
    (entrypoint envAvatarTimeout).sessionCreated = true ∧
    (entrypoint envAvatarTimeout).sessionStartInvoked = true ∧
    (envAvatarTimeout.sessionStartOk = true →
      (entrypoint envAvatarTimeout).exit = ExitKind.normalReturn ∧
      (entrypoint envAvatarTimeout).sessionStarted = true) :=
  C7_avatar_failure_never_fatal.2 envAvatarTimeout (by decide) (by decide)
    (by decide) (by decide) (by decide)

/-- C8: when the avatar start raises the distinguished 402 billing status,
the run ends in voice-only mode with the binding absent, the distinct
quota log (not the generic one) is emitted, the error is recorded in
`tavus_error`, and after the session starts the user-facing NOTE is logged;
a generic avatar failure instead produces the generic log and no quota
note. -/
theorem C8_quota_distinguished_handling :
    ∀ (e : Env),
      (create_session_with_fallback e.ollamaAvailable e.ollamaOk e.geminiOk).isSome = true →
      isBlank e.tavusApiKey = false →
      isBlank e.tavusReplicaId = false →
      isBlank e.tavusPersonaId = false →
      e.sessionStartOk = true →
      (e.avatarOutcome = AvatarOutcome.apiStatusError 402 →
        (entrypoint e).avatarInitialized = false ∧
        (entrypoint e).quotaErrorLogged = true ∧
        (entrypoint e).genericAvatarErrorLogged = false ∧
        (entrypoint e).quotaNoteLogged = true ∧
        (entrypoint e).tavusError = some (AvatarOutcome.apiStatusError 402) ∧
        (entrypoint e).exit = ExitKind.normalReturn ∧
        (entrypoint e).sessionStarted = true) ∧
      (e.avatarOutcome = AvatarOutcome.otherError →
        (entrypoint e).quotaErrorLogged = false ∧
        (entrypoint e).quotaNoteLogged = false ∧
        (entrypoint e).genericAvatarErrorLogged = true) := by
  intro e hs h1 h2 h3 hstart
  cases hf : create_session_with_fallback e.ollamaAvailable e.ollamaOk e.geminiOk with
  | none => simp [hf] at hs
  | some s =>
    constructor
    · intro ho
      simp [entrypoint, entrypointTryBody, hf, h1, h2, h3, ho, hstart,
            avatarPhase, tavusQuotaNote, normalResult]
    · intro ho
      simp [entrypoint, entrypointTryBody, hf, h1, h2, h3, ho, hstart,
            avatarPhase, tavusQuotaNote, normalResult]

/-- Witness for C8 at the 402 input. -/
theorem C8_quota_distinguished_handling_witness :
    (entrypoint envQuota).avatarInitialized = false ∧
    (entrypoint envQuota).quotaErrorLogged = true ∧
    (entrypoint envQuota).genericAvatarErrorLogged = false ∧
    (entrypoint envQuota).quotaNoteLogged = true ∧
    (entrypoint envQuota).tavusError = some (AvatarOutcome.apiStatusError 402) ∧
    (entrypoint envQuota).exit = ExitKind.normalReturn ∧
    (entrypoint envQuota).sessionStarted = true :=
  (C8_quota_distinguished_handling envQuota (by decide) (by decide) (by decide)
    (by decide) (by decide)).1 (by decide)

/-- Counterexample to C9: for a non-`/health` path the body is the banner
"English Teacher Agent is running" (render_app.py) or "English Teacher
Agent is running on Render" (agent.py), not the plain text
"agent is running" the claim states. -/
theorem C9_counterexample :
    (RenderApp.do_GET "/").status = 200 ∧
    (RenderApp.do_GET "/").body = "English Teacher Agent is running" ∧
    (RenderApp.do_GET "/").body ≠ "agent is running" ∧
    (AgentRender.do_GET "/").body = "English Teacher Agent is running on Render" ∧
    (AgentRender.do_GET "/").body ≠ "agent is running" := by decide

/-- C9 amended: GET `/health` returns 200 with the JSON health body (the
same JSON object the claim gives, serialized with spaces), and every other
path returns 200 with the plain-text banner "English Teacher Agent is
running" from `render_app.py`, respectively "English Teacher Agent is
running on Render" from the handler embedded in `agent.py`. -/
theorem C9_health_endpoint_bodies :
    RenderApp.do_GET "/health" =
      { status := 200, contentType := "application/json", body := healthJsonBody } ∧
    AgentRender.do_GET "/health" =
      { status := 200, contentType := "application/json", body := healthJsonBody } ∧
    (∀ (p : String), p ≠ "/health" →
        RenderApp.do_GET p =
          { status := 200, contentType := "text/plain",
            body := "English Teacher Agent is running" }) ∧
    (∀ (p : String), p ≠ "/health" →
        AgentRender.do_GET p =
          { status := 200, contentType := "text/plain",
            body := "English Teacher Agent is running on Render" }) := by
  refine ⟨by decide, by decide, ?_, ?_⟩
  · intro p hp
    have hb : (p == "/health") = false := by
      simp [hp]
    simp [RenderApp.do_GET, hb]
  · intro p hp
    have hb : (p == "/health") = false := by
      simp [hp]
    simp [AgentRender.do_GET, hb]

/-- Witness for C9's amended theorem at the root path. -/
theorem C9_health_endpoint_bodies_witness :
    RenderApp.do_GET "/" =
      { status := 200, contentType := "text/plain",
        body := "English Teacher Agent is running" } :=
  C9_health_endpoint_bodies.2.2.1 "/" (by decide)

/-- Counterexample to C10: at restart counter 9 — below the maximum of 10,
so the claim's hypothesis holds — a crashed attempt makes `entrypoint`
increment the shared counter to 10 and sleep 5 seconds before re-raising,
but the controller's own exception handler then sees the counter at the
maximum and does NOT increment it again: it breaks without a backoff sleep,
so the crash consumes one unit of budget, not two. -/
theorem C10_counterexample :
    envCrashAtNine.restartCount < _max_restarts ∧
    envCrashAtNine.shutdownRequested = false ∧
    (entrypoint envCrashAtNine).exit = ExitKind.raised ∧
    (entrypoint envCrashAtNine).restartCount = envCrashAtNine.restartCount + 1 ∧
    (entrypoint envCrashAtNine).sleptFive = true ∧
    (run_agent_step { shutdownRequested := false, restartCount := 9 }
        { setsShutdown := false, countDelta := 1,
          result := AttemptResult.crashed }).state.restartCount = 10 ∧
    (run_agent_step { shutdownRequested := false, restartCount := 9 }
        { setsShutdown := false, countDelta := 1,
          result := AttemptResult.crashed }).sleep = none ∧
    (run_agent_step { shutdownRequested := false, restartCount := 9 }
        { setsShutdown := false, countDelta := 1,
          result := AttemptResult.crashed }).continues = false := by decide

/-- C10 amended: when an attempt raises with shutdown unrequested and the
shared counter at most `_max_restarts - 2`, `entrypoint` increments the
counter and sleeps 5 seconds before re-raising, and the controller's
exception handler — seeing the already-incremented counter still below the
maximum — increments it again and sleeps the backoff delay: the single
crash consumes two units of the retry budget and incurs 5 seconds plus the
controller's `min(60, 5 * count)` backoff. At `_max_restarts - 1` only the
entrypoint's increment happens and the controller gives up. -/
theorem C10_double_increment_below_cap :
    ∀ (e : Env), e.shutdownRequested = false →
      e.restartCount + 2 ≤ _max_restarts →
      (entrypoint e).exit = ExitKind.raised →
      (entrypoint e).restartCount = e.restartCount + 1 ∧
      (entrypoint e).sleptFive = true ∧
      (run_agent_step { shutdownRequested := false, restartCount := e.restartCount }
          { setsShutdown := false, countDelta := 1,
            result := AttemptResult.crashed }).state.restartCount = e.restartCount + 2 ∧
      (run_agent_step { shutdownRequested := false, restartCount := e.restartCount }
          { setsShutdown := false, countDelta := 1,
            result := AttemptResult.crashed }).sleep =
        some (backoffDelay (e.restartCount + 2)) ∧
      (run_agent_step { shutdownRequested := false, restartCount := e.restartCount }
          { setsShutdown := false, countDelta := 1,
            result := AttemptResult.crashed }).continues = true := by
  intro e hsd hle hx
  have hlt : e.restartCount < _max_restarts := by omega
  have hstep : e.restartCount + 1 < _max_restarts := by omega
  have hmain : (entrypoint e).restartCount = e.restartCount + 1 ∧
      (entrypoint e).sleptFive = true := by
    cases h : entrypointTryBody e with
    | ok p => simp [entrypoint, h, normalResult] at hx
    | raise p =>
      simp [entrypoint, h, exceptHandler, hsd, hlt]
  refine ⟨hmain.1, hmain.2, ?_, ?_, ?_⟩ <;>
    simp [run_agent_step, hstep]

/-- Witness for C10's amended theorem: a crash at counter 0 bumps the
counter to 1 in the entrypoint and to 2 in the controller, with the 5-second
entry delay and the controller's 10-second backoff. -/
theorem C10_double_increment_below_cap_witness :
    (entrypoint envCrash).restartCount = envCrash.restartCount + 1 ∧
    (entrypoint envCrash).sleptFive = true ∧
    (run_agent_step { shutdownRequested := false, restartCount := envCrash.restartCount }
        { setsShutdown := false, countDelta := 1,
          result := AttemptResult.crashed }).state.restartCount = envCrash.restartCount + 2 ∧
    (run_agent_step { shutdownRequested := false, restartCount := envCrash.restartCount }
        { setsShutdown := false, countDelta := 1,
          result := AttemptResult.crashed }).sleep =
      some (backoffDelay (envCrash.restartCount + 2)) ∧
    (run_agent_step { shutdownRequested := false, restartCount := envCrash.restartCount }
        { setsShutdown := false, countDelta := 1,
          result := AttemptResult.crashed }).continues = true :=
  C10_double_increment_below_cap envCrash (by decide) (by decide) (by decide)
